import Mathlib

/-!
Verification of the SlideShow-Agent repository.

This file gives a shallow embedding of the two Python driver scripts
`create_cop_dynamic_transitions.py` and `create_cop_presentation.py`,
together with models (from the specification) of the shared retry wrapper
and the `validateWithRetry` loop whose implementations live in the skill
scripts, and proves the behavioral claims about them.
-/

set_option maxRecDepth 4000

/-! ## Embedding of create_cop_dynamic_transitions.py -/

namespace DynamicTransitions

/-- The `SLIDE_IMAGES` constant: the paths to the five existing slide images. -/
def SLIDE_IMAGES : List String := [
  "./output/slides/slide_01.png",
  "./output/slides/slide_02.png",
  "./output/slides/slide_03.png",
  "./output/slides/slide_04.png",
  "./output/slides/slide_05.png"
]

/-- The `AUDIO_FILE` constant: the existing combined narration track. -/
def AUDIO_FILE : String := "./output/audio/narration_full.mp3"

/-- The `OUTPUT_PATH` constant: where the final video is written. -/
def OUTPUT_PATH : String := "./output/cop_presentation_dynamic.mp4"

/-- The `TRANSITION_PROMPTS` constant: the four custom morph prompts, one per
consecutive slide pair, transcribed verbatim (adjacent Python string
literals become appends). -/
def TRANSITION_PROMPTS : List String := [
  "Starting from @Image1, the circular logo linework begins to pulse with energy. "
    ++ "The interconnected lines gracefully untangle and flow to the right side, "
    ++ "morphing and reshaping into the silhouette of a person on an arrow as shown in @Image2. "
    ++ "Text elements elegantly slide and transform into the new positions. "
    ++ "The transformation completes smoothly, landing exactly on the composition of @Image2. "
    ++ "Professional, fluid motion throughout.",
  "Starting from @Image1, the arrow graphic extends dramatically while the figure "
    ++ "springs to life and runs up the arrow path. As the runner and arrow animate off screen, "
    ++ "swirling lines spiral into view, dancing and flowing before condensing into the "
    ++ "calendar and clock shapes shown in @Image2. Text transitions smoothly to match "
    ++ "the new layout. The animation ends precisely on @Image2. "
    ++ "Energetic but professional, like an animated infographic.",
  "Starting from @Image1, the calendar and clock graphics spin gently, their lines "
    ++ "unraveling into flowing ribbons. The ribbons swirl outward in an expanding pattern, "
    ++ "then curve back and reform into the circle of connected human figures shown in @Image2. "
    ++ "Each figure appears one by one around the ring. Text transitions with a smooth fade. "
    ++ "The animation lands exactly on @Image2 - time transforming into community. "
    ++ "Elegant, professional, satisfying motion.",
  "Starting from @Image1, the circle of connected people pulses with energy, then "
    ++ "the figures gracefully move outward, arms extending. The expanding motion transforms "
    ++ "as the elements reshape into the reaching hands composition shown in @Image2. "
    ++ "Text sweeps in to match the final layout. The animation conveys invitation and welcome, "
    ++ "ending precisely on @Image2 with a sense of completeness and call to action. "
    ++ "Professional but warm and engaging."
]

/-- Modelled from the spec: the directory tree returned by
`ensure_output_dirs` in the skill scripts (not under src/): the working
directory tree slides/audio/transitions/temp. -/
structure OutputDirs where
  slides : String
  audio : String
  transitions : String
  temp : String
deriving DecidableEq

/-- Observable events of a run of `main`: every `print` call, every
`os.path.exists` check, and the three pipeline-stage calls with the exact
arguments they receive. -/
inductive Event where
  | print_msg (msg : String)
  | os_path_exists (path : String)
  | ensure_output_dirs (base : String)
  | generate_transitions_batch (slide_images : List String) (output_dir : String)
      (transition_style : String) (custom_prompts : List String)
  | assemble_slideshow_with_single_audio (slide_images : List String) (audio_file : String)
      (transition_videos : List String) (output_path : String) (temp_dir : String)
      (transition_duration : ℚ)
deriving DecidableEq

/-- The external collaborators `main` calls: the filesystem and the three
skill-script functions, treated as opaque black boxes. -/
structure Env where
  path_exists : String → Bool
  ensure_output_dirs : String → OutputDirs
  generate_transitions_batch : List String → String → String → List String → List String
  assemble_slideshow_with_single_audio :
    List String → String → List String → String → String → ℚ → String

/-- The equals-sign character used by the separator line. -/
def eqChar : Char := Char.ofNat 61

/-- The `"=" * 60` separator line printed throughout `main`. -/
def sep60 : String := String.mk (List.replicate 60 eqChar)

/-- The slide-existence loop at the top of `main`: checks each slide path in
order; on the first missing one it prints the two error lines and aborts. -/
def checkSlidesLoop (ex : String → Bool) : List String → List Event × Bool
  | [] => ([], true)
  | s :: rest =>
    if ex s then
      let r := checkSlidesLoop ex rest
      (Event.os_path_exists s :: r.1, r.2)
    else
      ([Event.os_path_exists s,
        Event.print_msg ("ERROR: Slide not found: " ++ s),
        Event.print_msg "Please run create_cop_presentation.py first to generate slides."],
       false)

/-- The function `main` of create_cop_dynamic_transitions.py, as a function from the
external environment to the trace of observable events and the returned
value (`none` models Python `return None`). -/
def main (env : Env) : List Event × Option String :=
  let banner : List Event := [
    Event.print_msg "Creating COP Presentation with DYNAMIC Transitions",
    Event.print_msg sep60,
    Event.print_msg "Using existing slides and audio",
    Event.print_msg "Generating TRUE MORPH transitions (Kling O1 Reference-to-Video)",
    Event.print_msg "Each transition morphs from start slide to end slide exactly",
    Event.print_msg sep60]
  let chk := checkSlidesLoop env.path_exists SLIDE_IMAGES
  if chk.2 = false then
    (banner ++ chk.1, none)
  else if env.path_exists AUDIO_FILE = false then
    (banner ++ chk.1 ++
      [Event.os_path_exists AUDIO_FILE,
       Event.print_msg ("ERROR: Audio not found: " ++ AUDIO_FILE),
       Event.print_msg "Please run create_cop_presentation.py first to generate audio."],
     none)
  else
    let dirs := env.ensure_output_dirs "./output"
    let transitions_dir := dirs.transitions
    let temp_dir := dirs.temp
    let transition_videos :=
      env.generate_transitions_batch SLIDE_IMAGES transitions_dir "morph" TRANSITION_PROMPTS
    let final_video :=
      env.assemble_slideshow_with_single_audio SLIDE_IMAGES AUDIO_FILE transition_videos
        OUTPUT_PATH temp_dir ((5 : ℚ) / 2)
    (banner ++ chk.1 ++
      [Event.os_path_exists AUDIO_FILE,
       Event.print_msg ("\nSlides: " ++ toString SLIDE_IMAGES.length ++ " existing slides"),
       Event.print_msg ("Audio: " ++ AUDIO_FILE),
       Event.print_msg ("Transitions: " ++ toString TRANSITION_PROMPTS.length
         ++ " custom morph animations"),
       Event.print_msg ("Output: " ++ OUTPUT_PATH),
       Event.print_msg "",
       Event.ensure_output_dirs "./output",
       Event.print_msg sep60,
       Event.print_msg "GENERATING MORPH TRANSITIONS (Kling O1 Reference-to-Video)",
       Event.print_msg "Using start (@Image1) and end (@Image2) frames for true morphing",
       Event.print_msg sep60,
       Event.generate_transitions_batch SLIDE_IMAGES transitions_dir "morph" TRANSITION_PROMPTS,
       Event.print_msg ("\nGenerated " ++ toString transition_videos.length
         ++ " morph transitions"),
       Event.print_msg ("\n" ++ sep60),
       Event.print_msg "ASSEMBLING FINAL VIDEO (FFmpeg)",
       Event.print_msg "Syncing slides with existing audio track",
       Event.print_msg sep60,
       Event.assemble_slideshow_with_single_audio SLIDE_IMAGES AUDIO_FILE transition_videos
         OUTPUT_PATH temp_dir ((5 : ℚ) / 2),
       Event.print_msg ("\n" ++ sep60),
       Event.print_msg ("COMPLETE! Video saved to: " ++ final_video),
       Event.print_msg sep60],
     some final_video)

/-- Is the event one of the three pipeline-stage calls? -/
def isStageCall : Event → Bool
  | Event.ensure_output_dirs _ => true
  | Event.generate_transitions_batch _ _ _ _ => true
  | Event.assemble_slideshow_with_single_audio _ _ _ _ _ _ => true
  | _ => false

/-- Is the event an `os.path.exists` check? -/
def isExistsCheck : Event → Bool
  | Event.os_path_exists _ => true
  | _ => false

/-- Is the event the `generate_transitions_batch` call? -/
def isGenBatch : Event → Bool
  | Event.generate_transitions_batch _ _ _ _ => true
  | _ => false

/-- Is the event the `assemble_slideshow_with_single_audio` call? -/
def isAssemble : Event → Bool
  | Event.assemble_slideshow_with_single_audio _ _ _ _ _ _ => true
  | _ => false

/-- The transitions directory `main` passes to `generate_transitions_batch`. -/
def transitions_dir (env : Env) : String := (env.ensure_output_dirs "./output").transitions

/-- The temp directory `main` passes to the assembler. -/
def run_temp_dir (env : Env) : String := (env.ensure_output_dirs "./output").temp

/-- The transition clips returned by the batch generation call in `main`. -/
def transition_videos (env : Env) : List String :=
  env.generate_transitions_batch SLIDE_IMAGES (transitions_dir env) "morph" TRANSITION_PROMPTS

/-- The error line printed for a missing asset `q`. -/
def not_found_msg (q : String) : String :=
  if q = AUDIO_FILE then "ERROR: Audio not found: " ++ q
  else "ERROR: Slide not found: " ++ q

/-- The fix-it line printed after a missing asset `q`. -/
def fix_msg (q : String) : String :=
  if q = AUDIO_FILE then "Please run create_cop_presentation.py first to generate audio."
  else "Please run create_cop_presentation.py first to generate slides."

/-- The checks and stage calls of a run, in execution order. -/
def key_events (env : Env) : List Event :=
  (main env).1.filter (fun e => isExistsCheck e || isStageCall e)

/-- The fixed order in which `main` may perform checks and stage calls. -/
def full_key_sequence (env : Env) : List Event :=
  SLIDE_IMAGES.map Event.os_path_exists ++
    [Event.os_path_exists AUDIO_FILE,
     Event.ensure_output_dirs "./output",
     Event.generate_transitions_batch SLIDE_IMAGES (transitions_dir env) "morph"
       TRANSITION_PROMPTS,
     Event.assemble_slideshow_with_single_audio SLIDE_IMAGES AUDIO_FILE (transition_videos env)
       OUTPUT_PATH (run_temp_dir env) ((5 : ℚ) / 2)]

end DynamicTransitions

/-! ## Embedding of create_cop_presentation.py -/

namespace Presentation

/-- The `Slide` record consumed by the pipeline. -/
structure Slide where
  title : String
  bullet_points : List String
  narration : String
  visual_description : String
  is_title_slide : Bool
deriving DecidableEq

/-- The `PresentationConfig` record consumed by `create_slideshow_video`. -/
structure PresentationConfig where
  slides : List Slide
  voice : String
  transition_style : String
  transition_duration : ℚ
  reference_images : List String
  output_path : String
  validate_slides : Bool
  max_validation_attempts : Nat
deriving DecidableEq

/-- The `slides` list of create_cop_presentation.py: the five slide
definitions, transcribed verbatim. -/
def slides : List Slide := [
  { title := "Communities of Practice",
    bullet_points := [
      "Small groups, big ideas",
      "Cross-departmental learning",
      "Collaborative growth"],
    narration :=
      "Welcome to Abonmarche Communities of Practice. "
        ++ "These are small, cross-departmental groups designed to help employees "
        ++ "learn new tools, share real-world expertise, and strengthen collaboration "
        ++ "across the organization. Communities of Practice are not lectures or "
        ++ "passive trainings. They are discussion-driven, collaborative environments "
        ++ "where every participant contributes.",
    visual_description := "The Communities of Practice logo prominently centered",
    is_title_slide := true },
  { title := "Why Join?",
    bullet_points := [
      "Accelerate professional growth",
      "Improve workflows",
      "Build peer connections"],
    narration :=
      "The goal of a Community of Practice is to accelerate professional growth, "
        ++ "improve workflows, and create meaningful connections across teams. "
        ++ "You will learn from peers who face similar challenges and opportunities, "
        ++ "sharing practical solutions from real projects.",
    visual_description :=
      "Line-art icon of an ascending growth path or upward arrow with person figure",
    is_title_slide := false },
  { title := "How It Works",
    bullet_points := [
      "Monthly meetings",
      "Flexible agenda",
      "Tool demos and Q&A"],
    narration :=
      "Communities of Practice meet monthly following a structured but flexible agenda. "
        ++ "Sessions may include tool or technology deep dives, project knowledge-sharing, "
        ++ "workflow demonstrations, technical insights and lessons learned, and open "
        ++ "question and answer sessions with group discussion.",
    visual_description := "Line-art icon of a calendar or meeting/clock symbol",
    is_title_slide := false },
  { title := "Group Structure",
    bullet_points := [
      "10 participants max",
      "Join up to 3 groups",
      "Cross-departmental mix"],
    narration :=
      "Each Community of Practice is capped at 10 participants to encourage engagement "
        ++ "and meaningful conversation. Participants may join up to three Communities of "
        ++ "Practice based on interest areas. Groups are intentionally cross-departmental "
        ++ "to promote diverse perspectives and build internal networks.",
    visual_description :=
      "Line-art icon of connected people in a circle, similar to the COP logo symbol",
    is_title_slide := false },
  { title := "Join Today",
    bullet_points := [
      "Spots fill quickly",
      "Learn and contribute",
      "Sharpen your skills"],
    narration :=
      "Enrollment is limited and spots fill quickly. Join a Community of Practice "
        ++ "to learn, contribute, and sharpen your skills alongside peers from across "
        ++ "the organization. Grow professionally through peer learning, stay current "
        ++ "with evolving tools and technology, and build a culture of shared knowledge "
        ++ "and collaboration.",
    visual_description := "Line-art icon of a hand reaching upward or people joining together",
    is_title_slide := false }
]

/-- The `config` object of create_cop_presentation.py. -/
def config : PresentationConfig :=
  { slides := slides,
    voice := "Hope",
    transition_style := "morph",
    transition_duration := (5 : ℚ) / 2,
    reference_images := ["Reference Images/COP Logo.png"],
    output_path := "./output/cop_presentation_v2.mp4",
    validate_slides := true,
    max_validation_attempts := 3 }

end Presentation

/-! ## Substring search used to state properties of narration text -/

/-- Does `hay` contain `pat` as a contiguous run of characters? -/
def listContainsRun (pat : List Char) : List Char → Bool
  | [] => pat.isEmpty
  | c :: rest => pat.isPrefixOf (c :: rest) || listContainsRun pat rest

/-- Does string `s` contain string `pat` as a contiguous substring? -/
def strContains (s pat : String) : Bool :=
  listContainsRun pat.toList s.toList

/-! ## Remote Media Client retry wrapper (modelled from the spec) -/

namespace RemoteMediaClient

/-- Outcome of running the retry wrapper: the sleeps performed (in order),
the number of attempts made, and the final result. -/
structure RetryOutcome (ε α : Type) where
  delays : List ℚ
  attempts : Nat
  result : Except ε α

/-- Modelled from the spec: the recursion of the shared retry wrapper
(Remote Media Client), whose implementation lives in the skill scripts and
is not under src/.  `work` maps the 0-based attempt index to that attempt's
result; `fuel` is the number of attempts still allowed.  On failure with
attempts remaining it sleeps `d * 2 ^ attempt` (base delay doubling per
attempt) and retries; on exhausting attempts it propagates the last failure
unchanged. -/
def retryGo (work : Nat → Except ε α) (d : ℚ) : Nat → Nat → RetryOutcome ε α
  | attempt, 0 => ⟨[], 0, work attempt⟩
  | attempt, fuel + 1 =>
    match work attempt with
    | Except.ok a => ⟨[], 1, Except.ok a⟩
    | Except.error e =>
      match fuel with
      | 0 => ⟨[], 1, Except.error e⟩
      | _ + 1 =>
        let rest := retryGo work d (attempt + 1) fuel
        ⟨d * 2 ^ attempt :: rest.delays, rest.attempts + 1, rest.result⟩

/-- Modelled from the spec: the shared retry wrapper.  Executes `work` up to
`max_retries` times starting at attempt 0, with exponentially growing
backoff from `initial_delay`. -/
def retry_with_backoff (work : Nat → Except ε α) (max_retries : Nat)
    (initial_delay : ℚ) : RetryOutcome ε α :=
  retryGo work initial_delay 0 max_retries

end RemoteMediaClient

/-! ## Slide Validator retry loop (modelled from the spec) -/

namespace SlideValidator

/-- The validator's recommendation field. -/
inductive Recommendation where
  | approve
  | regenerate
  | manual_review
deriving DecidableEq

/-- The validator's quality tiers. -/
inductive QualityTier where
  | good
  | acceptable
  | poor
deriving DecidableEq

/-- The structured verdict returned by a validation call. -/
structure ValidationResult where
  passed : Bool
  text_quality : QualityTier
  text_issues : List String
  graphics_quality : QualityTier
  graphics_issues : List String
  score : Nat
  recommendation : Recommendation
  explanation : String
deriving DecidableEq

/-- Does this attempt qualify for immediate acceptance: score at least
`min_score` and recommendation not `regenerate`? -/
def accepts (min_score : Nat) (v : ValidationResult) : Bool :=
  min_score ≤ v.score && v.recommendation ≠ Recommendation.regenerate

/-- Modelled from the spec: the recursion of `validateWithRetry`, whose
implementation lives in the skill scripts and is not under src/.
`attempts` maps the 0-based attempt index to the generated image path and
its validation verdict (one generate-then-validate round); `best` is the
highest-scoring attempt seen so far, replaced only on a strictly higher
score so ties keep the earliest. -/
def vwrGo (attempts : Nat → String × ValidationResult) (min_score : Nat) :
    Nat → Nat → Option (String × ValidationResult) → Option (String × ValidationResult)
  | _, 0, best => best
  | i, fuel + 1, best =>
    let r := attempts i
    if accepts min_score r.2 then some r
    else
      let best2 := match best with
        | none => some r
        | some b => if b.2.score < r.2.score then some r else some b
      vwrGo attempts min_score (i + 1) fuel best2

/-- Modelled from the spec: `validateWithRetry`.  Runs up to `max_attempts`
generate-then-validate rounds; returns the first accepted attempt, else the
best attempt seen (`none` only in the degenerate `max_attempts = 0` case). -/
def validateWithRetry (attempts : Nat → String × ValidationResult)
    (max_attempts min_score : Nat) : Option (String × ValidationResult) :=
  vwrGo attempts min_score 0 max_attempts none

end SlideValidator


/-! ## Remaining definitions used by the theorems -/

namespace DynamicTransitions

/-- Two-digit zero-padded rendering of a slide index, as produced by the
slide image producer's deterministic naming contract. -/
def two_digit (i : Nat) : String :=
  if i < 10 then "0" ++ toString i else toString i

/-- A concrete environment in which every asset file is present. -/
def env_all_present : Env :=
  { path_exists := fun _ => true,
    ensure_output_dirs := fun base =>
      ⟨base ++ "/slides", base ++ "/audio", base ++ "/transitions", base ++ "/temp"⟩,
    generate_transitions_batch := fun _ _ _ prompts =>
      (List.range prompts.length).map
        (fun i => "./output/transitions/transition_" ++ two_digit (i + 1) ++ ".mp4"),
    assemble_slideshow_with_single_audio := fun _ _ _ out _ _ => out }

/-- A concrete environment in which no asset file is present. -/
def env_missing_all : Env :=
  { path_exists := fun _ => false,
    ensure_output_dirs := fun base =>
      ⟨base ++ "/slides", base ++ "/audio", base ++ "/transitions", base ++ "/temp"⟩,
    generate_transitions_batch := fun _ _ _ _ => [],
    assemble_slideshow_with_single_audio := fun _ _ _ out _ _ => out }

end DynamicTransitions

namespace SlideValidator

/-- A low-scoring verdict that asks for regeneration. -/
def vrLow : ValidationResult :=
  ⟨false, QualityTier.poor, ["illegible text"], QualityTier.poor, [], 4,
   Recommendation.regenerate, "low quality"⟩

/-- A mid-scoring verdict that still asks for regeneration. -/
def vrMid : ValidationResult :=
  ⟨false, QualityTier.acceptable, ["minor artifacts"], QualityTier.acceptable, [], 6,
   Recommendation.regenerate, "borderline"⟩

/-- A passing verdict. -/
def vrGood : ValidationResult :=
  ⟨true, QualityTier.good, [], QualityTier.good, [], 9,
   Recommendation.approve, "looks professional"⟩

/-- Attempt sequence whose second round passes. -/
def attemptsA : Nat → String × ValidationResult :=
  fun i => if i = 0 then ("slide_a0.png", vrLow) else ("slide_a1.png", vrGood)

/-- Attempt sequence in which no round ever passes; round 1 scores highest. -/
def attemptsB : Nat → String × ValidationResult :=
  fun i => if i = 1 then ("slide_b1.png", vrMid) else ("slide_b0.png", vrLow)

end SlideValidator

/-! ## Theorems -/

open DynamicTransitions Presentation RemoteMediaClient SlideValidator

/-- Claim C2: the number of transitions equals the number of slides minus
one: for the five slide images in `SLIDE_IMAGES`,
create_cop_dynamic_transitions.py supplies exactly four custom transition
prompts, so transitions = slides − 1 with at least 2 slides. -/
theorem claim_C2_transition_count :
    SLIDE_IMAGES.length = 5 ∧
    TRANSITION_PROMPTS.length = 4 ∧
    TRANSITION_PROMPTS.length = SLIDE_IMAGES.length - 1 ∧
    2 ≤ SLIDE_IMAGES.length := by
  refine ⟨by decide, by decide, by decide, by decide⟩

/-- Claim C6: the slide image paths follow the producer's deterministic
naming contract: entry i (1-based) of `SLIDE_IMAGES` is
"./output/slides/slide_" followed by the two-digit zero-padded index and
".png", in ascending order. -/
theorem claim_C6_slide_paths :
    SLIDE_IMAGES =
      (List.range 5).map
        (fun i => "./output/slides/slide_" ++ two_digit (i + 1) ++ ".png") := by
  decide

/-- Claim C8: the presentation in create_cop_presentation.py satisfies the
data-model bounds: five slides (non-empty sequence), and every slide has a
non-empty title, at most 4 bullet points, a non-empty narration, and a
non-empty visual description. -/
theorem claim_C8_data_model_bounds :
    slides ≠ [] ∧ slides.length = 5 ∧
    slides.all (fun s =>
      !s.title.isEmpty && decide (s.bullet_points.length ≤ 4)
        && !s.narration.isEmpty && !s.visual_description.isEmpty) = true := by
  refine ⟨by decide, by decide, by decide⟩

/-- Claim C9: `is_title_slide` is true for exactly the first of the five
slides and false for the other four. -/
theorem claim_C9_title_slide_flag :
    slides.map Slide.is_title_slide = [true, false, false, false, false] := by
  decide

/-- Claim C10: every slide's narration contains the spelled-out phrase
"Community of Practice" or "Communities of Practice" and never contains the
abbreviation "COP" (checked as: "COP" does not occur as a substring at
all). -/
theorem claim_C10_narration_spells_out_name :
    slides.all (fun s =>
      (strContains s.narration "Community of Practice"
        || strContains s.narration "Communities of Practice")
      && !(strContains s.narration "COP")) = true := by
  decide

/-- Claim C1: when all five slide images and the audio file exist, `main`
calls `generate_transitions_batch` once and then
`assemble_slideshow_with_single_audio` once with output path
"./output/cop_presentation_dynamic.mp4" and transition_duration 2.5, and
returns exactly the assembler's return value. -/
theorem claim_C1_success_pipeline (env : Env)
    (hs : ∀ p ∈ SLIDE_IMAGES, env.path_exists p = true)
    (ha : env.path_exists AUDIO_FILE = true) :
    (main env).1.filter (fun e => isGenBatch e || isAssemble e) =
      [Event.generate_transitions_batch SLIDE_IMAGES (transitions_dir env) "morph"
         TRANSITION_PROMPTS,
       Event.assemble_slideshow_with_single_audio SLIDE_IMAGES AUDIO_FILE
         (transition_videos env) "./output/cop_presentation_dynamic.mp4" (run_temp_dir env)
         ((5 : ℚ) / 2)] ∧
    (main env).2 = some (env.assemble_slideshow_with_single_audio SLIDE_IMAGES AUDIO_FILE
      (transition_videos env) "./output/cop_presentation_dynamic.mp4" (run_temp_dir env)
      ((5 : ℚ) / 2)) := by
  have h1 := hs _ (show "./output/slides/slide_01.png" ∈ SLIDE_IMAGES by decide)
  have h2 := hs _ (show "./output/slides/slide_02.png" ∈ SLIDE_IMAGES by decide)
  have h3 := hs _ (show "./output/slides/slide_03.png" ∈ SLIDE_IMAGES by decide)
  have h4 := hs _ (show "./output/slides/slide_04.png" ∈ SLIDE_IMAGES by decide)
  have h5 := hs _ (show "./output/slides/slide_05.png" ∈ SLIDE_IMAGES by decide)
  simp [main, SLIDE_IMAGES, checkSlidesLoop, h1, h2, h3, h4, h5, ha, OUTPUT_PATH,
    transitions_dir, run_temp_dir, transition_videos, isGenBatch, isAssemble]

/-- Witness for claim C1: in a concrete environment with every asset
present, the hypotheses hold and the conclusion evaluates. -/
theorem claim_C1_success_pipeline_witness :
    (∀ p ∈ SLIDE_IMAGES, env_all_present.path_exists p = true) ∧
    env_all_present.path_exists AUDIO_FILE = true ∧
    ((main env_all_present).1.filter (fun e => isGenBatch e || isAssemble e) =
      [Event.generate_transitions_batch SLIDE_IMAGES (transitions_dir env_all_present) "morph"
         TRANSITION_PROMPTS,
       Event.assemble_slideshow_with_single_audio SLIDE_IMAGES AUDIO_FILE
         (transition_videos env_all_present) "./output/cop_presentation_dynamic.mp4"
         (run_temp_dir env_all_present) ((5 : ℚ) / 2)] ∧
     (main env_all_present).2 = some (env_all_present.assemble_slideshow_with_single_audio
       SLIDE_IMAGES AUDIO_FILE (transition_videos env_all_present)
       "./output/cop_presentation_dynamic.mp4" (run_temp_dir env_all_present)
       ((5 : ℚ) / 2))) :=
  ⟨by decide, rfl, claim_C1_success_pipeline env_all_present (by decide) rfl⟩

/-- Claim C3: if any of the five slide images or the audio file is missing,
`main` prints an error naming a missing file plus a fix-it line, returns
`None`, and performs none of `ensure_output_dirs`,
`generate_transitions_batch`, `assemble_slideshow_with_single_audio`. -/
theorem claim_C3_missing_asset_aborts (env : Env) (p : String)
    (hp : p ∈ SLIDE_IMAGES ++ [AUDIO_FILE])
    (hmiss : env.path_exists p = false) :
    (main env).2 = none ∧
    (main env).1.filter isStageCall = [] ∧
    ∃ q, q ∈ SLIDE_IMAGES ++ [AUDIO_FILE] ∧ env.path_exists q = false ∧
      Event.print_msg (not_found_msg q) ∈ (main env).1 ∧
      Event.print_msg (fix_msg q) ∈ (main env).1 := by
  cases h1 : env.path_exists "./output/slides/slide_01.png" with
  | false =>
    refine ⟨?_, ?_, "./output/slides/slide_01.png", by decide, h1, ?_, ?_⟩ <;>
      simp [main, SLIDE_IMAGES, checkSlidesLoop, h1, isStageCall, not_found_msg, fix_msg,
        AUDIO_FILE]
  | true =>
  cases h2 : env.path_exists "./output/slides/slide_02.png" with
  | false =>
    refine ⟨?_, ?_, "./output/slides/slide_02.png", by decide, h2, ?_, ?_⟩ <;>
      simp [main, SLIDE_IMAGES, checkSlidesLoop, h1, h2, isStageCall, not_found_msg, fix_msg,
        AUDIO_FILE]
  | true =>
  cases h3 : env.path_exists "./output/slides/slide_03.png" with
  | false =>
    refine ⟨?_, ?_, "./output/slides/slide_03.png", by decide, h3, ?_, ?_⟩ <;>
      simp [main, SLIDE_IMAGES, checkSlidesLoop, h1, h2, h3, isStageCall, not_found_msg,
        fix_msg, AUDIO_FILE]
  | true =>
  cases h4 : env.path_exists "./output/slides/slide_04.png" with
  | false =>
    refine ⟨?_, ?_, "./output/slides/slide_04.png", by decide, h4, ?_, ?_⟩ <;>
      simp [main, SLIDE_IMAGES, checkSlidesLoop, h1, h2, h3, h4, isStageCall, not_found_msg,
        fix_msg, AUDIO_FILE]
  | true =>
  cases h5 : env.path_exists "./output/slides/slide_05.png" with
  | false =>
    refine ⟨?_, ?_, "./output/slides/slide_05.png", by decide, h5, ?_, ?_⟩ <;>
      simp [main, SLIDE_IMAGES, checkSlidesLoop, h1, h2, h3, h4, h5, isStageCall,
        not_found_msg, fix_msg, AUDIO_FILE]
  | true =>
  cases h6 : env.path_exists AUDIO_FILE with
  | false =>
    have h6l : env.path_exists "./output/audio/narration_full.mp3" = false := h6
    refine ⟨?_, ?_, AUDIO_FILE, by decide, h6, ?_, ?_⟩ <;>
      simp [main, SLIDE_IMAGES, checkSlidesLoop, h1, h2, h3, h4, h5, h6l, isStageCall,
        not_found_msg, fix_msg, AUDIO_FILE]
  | true =>
    exfalso
    simp [SLIDE_IMAGES, AUDIO_FILE] at hp
    rcases hp with rfl | rfl | rfl | rfl | rfl | rfl <;> simp_all [AUDIO_FILE]

/-- Witness for claim C3: in a concrete environment with no asset present,
the hypotheses hold and the run aborts with the error lines. -/
theorem claim_C3_missing_asset_aborts_witness :
    "./output/slides/slide_01.png" ∈ SLIDE_IMAGES ++ [AUDIO_FILE] ∧
    env_missing_all.path_exists "./output/slides/slide_01.png" = false ∧
    ((main env_missing_all).2 = none ∧
     (main env_missing_all).1.filter isStageCall = [] ∧
     ∃ q, q ∈ SLIDE_IMAGES ++ [AUDIO_FILE] ∧ env_missing_all.path_exists q = false ∧
       Event.print_msg (not_found_msg q) ∈ (main env_missing_all).1 ∧
       Event.print_msg (fix_msg q) ∈ (main env_missing_all).1) :=
  ⟨by decide, rfl,
   claim_C3_missing_asset_aborts env_missing_all "./output/slides/slide_01.png" (by decide) rfl⟩

/-- Claim C7: execution of `main` is fully sequential: the trace of
existence checks and stage calls is always a prefix of the fixed sequence
slide checks, audio check, `ensure_output_dirs`,
`generate_transitions_batch`, `assemble_slideshow_with_single_audio` — so
each runs at most once, in that order, and assembly never precedes
transition generation. -/
theorem claim_C7_sequential_order (env : Env) :
    ∃ n, key_events env = (full_key_sequence env).take n := by
  cases h1 : env.path_exists "./output/slides/slide_01.png" with
  | false =>
    exact ⟨1, by simp [key_events, full_key_sequence, main, SLIDE_IMAGES, checkSlidesLoop,
      h1, isExistsCheck, isStageCall]⟩
  | true =>
  cases h2 : env.path_exists "./output/slides/slide_02.png" with
  | false =>
    exact ⟨2, by simp [key_events, full_key_sequence, main, SLIDE_IMAGES, checkSlidesLoop,
      h1, h2, isExistsCheck, isStageCall]⟩
  | true =>
  cases h3 : env.path_exists "./output/slides/slide_03.png" with
  | false =>
    exact ⟨3, by simp [key_events, full_key_sequence, main, SLIDE_IMAGES, checkSlidesLoop,
      h1, h2, h3, isExistsCheck, isStageCall]⟩
  | true =>
  cases h4 : env.path_exists "./output/slides/slide_04.png" with
  | false =>
    exact ⟨4, by simp [key_events, full_key_sequence, main, SLIDE_IMAGES, checkSlidesLoop,
      h1, h2, h3, h4, isExistsCheck, isStageCall]⟩
  | true =>
  cases h5 : env.path_exists "./output/slides/slide_05.png" with
  | false =>
    exact ⟨5, by simp [key_events, full_key_sequence, main, SLIDE_IMAGES, checkSlidesLoop,
      h1, h2, h3, h4, h5, isExistsCheck, isStageCall]⟩
  | true =>
  cases h6 : env.path_exists "./output/audio/narration_full.mp3" with
  | false =>
    exact ⟨6, by simp [key_events, full_key_sequence, main, SLIDE_IMAGES, checkSlidesLoop,
      AUDIO_FILE, h1, h2, h3, h4, h5, h6, isExistsCheck, isStageCall]⟩
  | true =>
    exact ⟨9, by simp [key_events, full_key_sequence, main, SLIDE_IMAGES, checkSlidesLoop,
      AUDIO_FILE, OUTPUT_PATH, transitions_dir, run_temp_dir, transition_videos,
      h1, h2, h3, h4, h5, h6, isExistsCheck, isStageCall]⟩

/-- If the work fails for `k` attempts from `attempt` and then succeeds, the
retry recursion returns the success value (given enough fuel). -/
theorem retryGo_result_ok {ε α : Type} (work : Nat → Except ε α) (d : ℚ) (val : α) :
    ∀ (k fuel attempt : Nat), k < fuel →
      (∀ j, j < k → ∃ e, work (attempt + j) = Except.error e) →
      work (attempt + k) = Except.ok val →
      (retryGo work d attempt fuel).result = Except.ok val := by
  intro k
  induction k with
  | zero =>
    intro fuel attempt hk hfail hok
    cases fuel with
    | zero => omega
    | succ f =>
      rw [Nat.add_zero] at hok
      simp [retryGo, hok]
  | succ k ih =>
    intro fuel attempt hk hfail hok
    cases fuel with
    | zero => omega
    | succ f =>
      obtain ⟨e, he⟩ := hfail 0 (Nat.succ_pos k)
      rw [Nat.add_zero] at he
      cases f with
      | zero => omega
      | succ f2 =>
        have hres : (retryGo work d (attempt + 1) (f2 + 1)).result = Except.ok val := by
          apply ih (f2 + 1) (attempt + 1) (by omega)
          · intro j hj
            obtain ⟨e2, he2⟩ := hfail (j + 1) (by omega)
            exact ⟨e2, by rw [← he2]; congr 1; omega⟩
          · rw [← hok]; congr 1; omega
        simpa [retryGo, he] using hres

/-- If the work always fails, the retry recursion performs all `fuel`
attempts, sleeps the doubling backoff sequence, and returns the last
failure unchanged. -/
theorem retryGo_result_allfail {ε α : Type} (work : Nat → Except ε α) (d : ℚ) (errs : Nat → ε)
    (hw : ∀ i, work i = Except.error (errs i)) :
    ∀ (fuel attempt : Nat), 1 ≤ fuel →
      retryGo work d attempt fuel =
        ⟨(List.range (fuel - 1)).map (fun j => d * 2 ^ (attempt + j)), fuel,
         Except.error (errs (attempt + fuel - 1))⟩ := by
  intro fuel
  induction fuel with
  | zero => intro attempt h; omega
  | succ f ih =>
    intro attempt _
    cases f with
    | zero => simp [retryGo, hw attempt]
    | succ f2 =>
      have hrest := ih (attempt + 1) (by omega)
      have hstep : retryGo work d attempt (f2 + 1 + 1) =
          ⟨d * 2 ^ attempt :: (retryGo work d (attempt + 1) (f2 + 1)).delays,
           (retryGo work d (attempt + 1) (f2 + 1)).attempts + 1,
           (retryGo work d (attempt + 1) (f2 + 1)).result⟩ := by
        simp [retryGo, hw attempt]
      have hstep2 : retryGo work d attempt (f2 + 1 + 1) =
          ⟨d * 2 ^ attempt ::
             (List.range (f2 + 1 - 1)).map (fun j => d * 2 ^ (attempt + 1 + j)),
           f2 + 1 + 1,
           Except.error (errs (attempt + 1 + (f2 + 1) - 1))⟩ := by
        rw [hstep, hrest]
      rw [hstep2]
      simp only [Nat.add_sub_cancel]
      congr 1
      · rw [List.range_succ_eq_map]
        simp only [List.map_cons, List.map_map, Function.comp_def, Nat.add_zero, pow_zero]
        congr 1
        apply List.map_congr_left
        intro j _
        congr 2
        omega
      · congr 2
        omega

/-- Claim C4: the shared retry wrapper returns the success value when the
work fails k < max_retries times then succeeds; with always-failing work it
propagates the last failure unchanged after exactly max_retries attempts,
with the sleep before (0-based) attempt i equal to initial_delay * 2^(i-1). -/
theorem claim_C4_retry_wrapper (ε α : Type) (errs : Nat → ε) (val : α)
    (max_retries k : Nat) (d : ℚ) (hk : k < max_retries) :
    (retry_with_backoff (fun i => if i < k then Except.error (errs i) else Except.ok val)
        max_retries d).result = Except.ok val ∧
    (retry_with_backoff (fun n => (Except.error (errs n) : Except ε α)) max_retries d).result
        = Except.error (errs (max_retries - 1)) ∧
    (retry_with_backoff (fun n => (Except.error (errs n) : Except ε α)) max_retries d).attempts
        = max_retries ∧
    ∀ i, 1 ≤ i → i < max_retries →
      (retry_with_backoff (fun n => (Except.error (errs n) : Except ε α)) max_retries
          d).delays[i - 1]? =
        some (d * 2 ^ (i - 1)) := by
  have hall := retryGo_result_allfail (fun n => (Except.error (errs n) : Except ε α)) d errs
    (fun _ => rfl) max_retries 0 (by omega)
  refine ⟨?_, ?_, ?_, ?_⟩
  · unfold retry_with_backoff
    apply retryGo_result_ok _ d val k max_retries 0 hk
    · intro j hj
      exact ⟨errs j, by simp [hj]⟩
    · simp
  · unfold retry_with_backoff
    rw [hall]
    simp
  · unfold retry_with_backoff
    rw [hall]
  · intro i h1 h2
    unfold retry_with_backoff
    rw [hall]
    simp only [List.getElem?_map]
    rw [List.getElem?_range (by omega : i - 1 < max_retries - 1)]
    simp

/-- Witness for claim C4: concrete run with max_retries 3, one initial
failure then success, and a concrete always-failing run. -/
theorem claim_C4_retry_wrapper_witness :
    (1 : Nat) < 3 ∧
    (retry_with_backoff (fun i => if i < 1 then Except.error i else Except.ok 7) 3
        (1 : ℚ)).result = Except.ok 7 ∧
    (retry_with_backoff (fun n => (Except.error n : Except Nat Nat)) 3 (1 : ℚ)).result
        = Except.error 2 ∧
    (retry_with_backoff (fun n => (Except.error n : Except Nat Nat)) 3 (1 : ℚ)).attempts = 3 ∧
    (retry_with_backoff (fun n => (Except.error n : Except Nat Nat)) 3 (1 : ℚ)).delays[1]? =
      some ((1 : ℚ) * 2 ^ 1) := by
  have h := claim_C4_retry_wrapper Nat Nat (fun n => n) 7 3 1 1 (by omega)
  exact ⟨by omega, h.1, h.2.1, h.2.2.1, h.2.2.2 2 (by omega) (by omega)⟩

/-- If attempt `i + j` is the first accepted one in the window, the
validation loop returns it regardless of the carried best. -/
theorem vwrGo_first_accepted (attempts : Nat → String × ValidationResult) (ms : Nat) :
    ∀ (j fuel i : Nat) (best : Option (String × ValidationResult)),
      j < fuel →
      accepts ms (attempts (i + j)).2 = true →
      (∀ t, t < j → accepts ms (attempts (i + t)).2 = false) →
      vwrGo attempts ms i fuel best = some (attempts (i + j)) := by
  intro j
  induction j with
  | zero =>
    intro fuel i best hj hacc hnot
    cases fuel with
    | zero => omega
    | succ f =>
      rw [Nat.add_zero] at hacc
      simp [vwrGo, hacc]
  | succ j ih =>
    intro fuel i best hj hacc hnot
    cases fuel with
    | zero => omega
    | succ f =>
      have h0 : accepts ms (attempts i).2 = false := by
        have := hnot 0 (Nat.succ_pos j)
        rwa [Nat.add_zero] at this
      have hrec := ih f (i + 1)
        (match best with
          | none => some (attempts i)
          | some b => if b.2.score < (attempts i).2.score then some (attempts i) else some b)
        (by omega)
        (by rw [show i + 1 + j = i + (j + 1) by omega]; exact hacc)
        (by intro t ht
            rw [show i + 1 + t = i + (t + 1) by omega]
            exact hnot (t + 1) (by omega))
      rw [show i + 1 + j = i + (j + 1) by omega] at hrec
      simpa [vwrGo, h0] using hrec

/-- If no attempt in the window is accepted, the validation loop returns the
highest-scoring attempt seen, earliest on ties, provided the carried best
already has that property for the prefix. -/
theorem vwrGo_exhaust_best (attempts : Nat → String × ValidationResult) (ms : Nat) :
    ∀ (fuel i b : Nat),
      (∀ t, t < fuel → accepts ms (attempts (i + t)).2 = false) →
      b < i →
      (∀ u, u < i → (attempts u).2.score ≤ (attempts b).2.score ∧
        ((attempts b).2.score ≤ (attempts u).2.score → b ≤ u)) →
      ∃ b2, vwrGo attempts ms i fuel (some (attempts b)) = some (attempts b2) ∧
        b2 < i + fuel ∧
        (∀ u, u < i + fuel → (attempts u).2.score ≤ (attempts b2).2.score ∧
          ((attempts b2).2.score ≤ (attempts u).2.score → b2 ≤ u)) := by
  intro fuel
  induction fuel with
  | zero =>
    intro i b hnq hbi hinv
    exact ⟨b, by simp [vwrGo], by omega, by simpa using hinv⟩
  | succ f ih =>
    intro i b hnq hbi hinv
    have h0 : accepts ms (attempts i).2 = false := by
      have := hnq 0 (Nat.succ_pos f)
      rwa [Nat.add_zero] at this
    by_cases hlt : (attempts b).2.score < (attempts i).2.score
    · have hinv2 : ∀ u, u < i + 1 → (attempts u).2.score ≤ (attempts i).2.score ∧
          ((attempts i).2.score ≤ (attempts u).2.score → i ≤ u) := by
        intro u hu
        rcases Nat.lt_or_ge u i with h | h
        · obtain ⟨ha, hb⟩ := hinv u h
          exact ⟨by omega, fun hle => by omega⟩
        · have hui : u = i := by omega
          subst hui
          exact ⟨le_refl _, fun _ => le_refl _⟩
      have hrec := ih (i + 1) i
        (by intro t ht
            rw [show i + 1 + t = i + (t + 1) by omega]
            exact hnq (t + 1) (by omega))
        (by omega) hinv2
      obtain ⟨b2, heq, hb2, hprop⟩ := hrec
      refine ⟨b2, ?_, by omega, ?_⟩
      · rw [← heq]
        simp [vwrGo, h0, hlt]
      · intro u hu
        exact hprop u (by omega)
    · have hinv2 : ∀ u, u < i + 1 → (attempts u).2.score ≤ (attempts b).2.score ∧
          ((attempts b).2.score ≤ (attempts u).2.score → b ≤ u) := by
        intro u hu
        rcases Nat.lt_or_ge u i with h | h
        · exact hinv u h
        · have hui : u = i := by omega
          subst hui
          exact ⟨by omega, fun _ => by omega⟩
      have hrec := ih (i + 1) b
        (by intro t ht
            rw [show i + 1 + t = i + (t + 1) by omega]
            exact hnq (t + 1) (by omega))
        (by omega) hinv2
      obtain ⟨b2, heq, hb2, hprop⟩ := hrec
      refine ⟨b2, ?_, by omega, ?_⟩
      · rw [← heq]
        simp [vwrGo, h0, hlt]
      · intro u hu
        exact hprop u (by omega)

/-- The validation loop yields a result whenever it may run at least one
round or already carries a best attempt. -/
theorem vwrGo_isSome (attempts : Nat → String × ValidationResult) (ms : Nat) :
    ∀ (fuel i : Nat) (best : Option (String × ValidationResult)),
      1 ≤ fuel ∨ best.isSome = true →
      (vwrGo attempts ms i fuel best).isSome = true := by
  intro fuel
  induction fuel with
  | zero =>
    intro i best h
    rcases h with h | h
    · omega
    · simpa [vwrGo] using h
  | succ f ih =>
    intro i best h
    by_cases hacc : accepts ms (attempts i).2 = true
    · simp [vwrGo, hacc]
    · have hacc2 : accepts ms (attempts i).2 = false := by
        cases hb : accepts ms (attempts i).2
        · rfl
        · exact absurd hb hacc
      have hbest2 : (match best with
          | none => some (attempts i)
          | some b => if b.2.score < (attempts i).2.score then some (attempts i)
              else some b).isSome = true := by
        cases best with
        | none => rfl
        | some b =>
          by_cases hlt : b.2.score < (attempts i).2.score <;> simp [hlt]
      have hrec := ih (i + 1) _ (Or.inr hbest2)
      simpa [vwrGo, hacc2] using hrec

/-- Claim C5: `validateWithRetry` returns the first attempt with score at
least min_score and recommendation different from regenerate; if no attempt
among max_attempts qualifies it still terminates and returns the attempt
with the strictly highest score seen (earliest on ties); with at least one
attempt allowed it always returns some result. -/
theorem claim_C5_validate_with_retry (attempts : Nat → String × ValidationResult)
    (max_attempts min_score j : Nat) :
    (j < max_attempts → accepts min_score (attempts j).2 = true →
      (∀ t, t < j → accepts min_score (attempts t).2 = false) →
      validateWithRetry attempts max_attempts min_score = some (attempts j)) ∧
    ((∀ t, t < max_attempts → accepts min_score (attempts t).2 = false) →
      1 ≤ max_attempts →
      ∃ b, b < max_attempts ∧
        validateWithRetry attempts max_attempts min_score = some (attempts b) ∧
        ∀ u, u < max_attempts → (attempts u).2.score ≤ (attempts b).2.score ∧
          ((attempts u).2.score = (attempts b).2.score → b ≤ u)) ∧
    (1 ≤ max_attempts →
      (validateWithRetry attempts max_attempts min_score).isSome = true) := by
  refine ⟨?_, ?_, ?_⟩
  · intro hj hacc hnot
    unfold validateWithRetry
    have hfst := vwrGo_first_accepted attempts min_score j max_attempts 0 none hj
      (by simpa using hacc) (by intro t ht; simpa using hnot t ht)
    simpa using hfst
  · intro hnq h1
    cases max_attempts with
    | zero => omega
    | succ m =>
      have h0 : accepts min_score (attempts 0).2 = false := hnq 0 (by omega)
      have hstart : validateWithRetry attempts (m + 1) min_score =
          vwrGo attempts min_score 1 m (some (attempts 0)) := by
        simp [validateWithRetry, vwrGo, h0]
      have hex := vwrGo_exhaust_best attempts min_score m 1 0
        (by intro t ht
            rw [show 1 + t = t + 1 by omega]
            exact hnq (t + 1) (by omega))
        (by omega)
        (by intro u hu
            have hu0 : u = 0 := by omega
            subst hu0
            exact ⟨le_refl _, fun _ => le_refl _⟩)
      obtain ⟨b2, heq, hb2, hprop⟩ := hex
      refine ⟨b2, by omega, by rw [hstart, heq], ?_⟩
      intro u hu
      have hu2 := hprop u (by omega)
      exact ⟨hu2.1, fun he => hu2.2 (by omega)⟩
  · intro h1
    unfold validateWithRetry
    exact vwrGo_isSome attempts min_score max_attempts 0 none (Or.inl h1)

/-- Witness for claim C5: a run that accepts its second attempt, a run in
which nothing is accepted and the best (round 1, score 6) is returned, and
a run with at least one attempt yielding some result. -/
theorem claim_C5_validate_with_retry_witness :
    validateWithRetry attemptsA 3 7 = some (attemptsA 1) ∧
    (∃ b, b < 3 ∧ validateWithRetry attemptsB 3 7 = some (attemptsB b) ∧
      ∀ u, u < 3 → (attemptsB u).2.score ≤ (attemptsB b).2.score ∧
        ((attemptsB u).2.score = (attemptsB b).2.score → b ≤ u)) ∧
    (validateWithRetry attemptsA 3 7).isSome = true := by
  refine ⟨?_, ?_, ?_⟩
  · exact (claim_C5_validate_with_retry attemptsA 3 7 1).1 (by omega) (by decide)
      (by decide)
  · exact (claim_C5_validate_with_retry attemptsB 3 7 0).2.1 (by decide) (by omega)
  · exact (claim_C5_validate_with_retry attemptsA 3 7 0).2.2 (by omega)
